import Mathlib

/-!
Verification development for the zulip-mobile-notifs repository.

This file gives a shallow embedding of the parts of the code that the
verified properties concern:

* the shared notification filter engine (src/shared/filters.ts, mirrored in
  the zulip-service module) — data types, quiet-hours and quiet-days tests,
  muted-stream and muted-topic tests, and the shouldNotify decision chain;
* the event-queue client (src/lib/zulip-client.ts) — the getEvents state
  transition, modelled over an explicit fetch outcome;
* the cloud worker scheduler (worker, pollUser and incrementFailures) —
  modelled as a pure function over one subscription record and the effects
  of one poll round;
* the Web Push payload padding step of encryptPayload (web-push.ts);
* the credential vault (worker crypto.ts, encryptCredentials and
  decryptCredentials) over abstract AES-GCM and key-derivation primitives
  and a concrete base64 (btoa and atob) codec.

Impure inputs (current time, weekday, regular-expression compilation,
randomness, network responses) are passed explicitly, so every definition
is executable and deterministic.
-/

namespace ZMN

/-! ## JS string helpers -/

/-- Does the character list begin with the given pattern list?
Models the position-0 test that underlies String.prototype.includes. -/
def hasPrefixChars : List Char → List Char → Bool
  | _, [] => true
  | [], _ :: _ => false
  | c :: cs, p :: ps => c == p && hasPrefixChars cs ps

/-- Substring containment on character lists. -/
def listContainsSub (s pat : List Char) : Bool :=
  if hasPrefixChars s pat then true
  else
    match s with
    | [] => false
    | _ :: t => listContainsSub t pat

/-- Model of JS String.prototype.toLowerCase over the characters of the
string (ASCII case mapping). -/
def jsToLower (s : String) : String :=
  String.mk (s.data.map Char.toLower)

/-- Model of JS String.prototype.includes. -/
def jsIncludes (s pat : String) : Bool :=
  listContainsSub s.data pat.data

/-- Model of JS Number() restricted to the strings the time parser feeds it:
the empty string converts to 0, a digit string to its value, anything else
to NaN (modelled as none). -/
def jsNumberNat (s : String) : Option Nat :=
  if s.isEmpty then some 0 else s.toNat?

/-- Minutes-of-day from an HH:MM string, following the source pattern
split(..).map(Number) with h * 60 + m; a missing component or a NaN
conversion makes every later comparison false, modelled as none
(filters.ts isQuietHours, lines 61-64). -/
def timeToMinutes (s : String) : Option Nat :=
  match s.splitOn ":" with
  | h :: m :: _ => do
      let hv ← jsNumberNat h
      let mv ← jsNumberNat m
      pure (hv * 60 + mv)
  | _ => none

/-! ## Filter engine data model (filters.ts) -/

/-- FilterSettings (filters.ts lines 13-25). -/
structure FilterSettings where
  notifyOnMention : Bool
  notifyOnDM : Bool
  notifyOnOther : Bool
  muteSelfMessages : Bool
  mutedStreams : List String
  mutedTopics : List String
  quietHoursEnabled : Bool
  quietHoursStart : String
  quietHoursEnd : String
  quietDaysEnabled : Bool
  quietDays : List Nat
  deriving DecidableEq, Repr

/-- The message kind tag: the source uses the string union of the two
values private and stream. -/
inductive MessageKind where
  | priv
  | stream
  deriving DecidableEq, Repr

/-- FilterableMessage (filters.ts lines 27-34); optional fields are Option. -/
structure FilterableMessage where
  senderId : Int
  kind : MessageKind
  stream : Option String
  subject : Option String
  mentioned : Bool
  wildcardMentioned : Bool
  deriving DecidableEq, Repr

/-- FilterResult (filters.ts lines 36-39). -/
structure FilterResult where
  notify : Bool
  reason : String
  deriving DecidableEq, Repr

/-- The impure context of a filter evaluation: current minutes of day,
current weekday (0 = Sunday), and the regular-expression engine.
regex p returns none when new RegExp(p, i-flag) throws, and otherwise the
compiled case-insensitive matcher. -/
structure FilterEnv where
  nowMinutes : Nat
  weekday : Nat
  regex : String → Option (String → Bool)

/-- DEFAULT_FILTER_SETTINGS (filters.ts lines 41-53). -/
def DEFAULT_FILTER_SETTINGS : FilterSettings :=
  { notifyOnMention := true
    notifyOnDM := true
    notifyOnOther := false
    muteSelfMessages := true
    mutedStreams := []
    mutedTopics := []
    quietHoursEnabled := false
    quietHoursStart := "22:00"
    quietHoursEnd := "07:00"
    quietDaysEnabled := false
    quietDays := [] }

/-! ## Filter engine (filters.ts lines 55-143) -/

/-- isQuietHours (filters.ts lines 55-72). -/
def isQuietHours (settings : FilterSettings) (env : FilterEnv) : Bool :=
  if !settings.quietHoursEnabled then false
  else
    match timeToMinutes settings.quietHoursStart, timeToMinutes settings.quietHoursEnd with
    | some startMinutes, some endMinutes =>
        if startMinutes > endMinutes then
          decide (env.nowMinutes ≥ startMinutes) || decide (env.nowMinutes < endMinutes)
        else
          decide (env.nowMinutes ≥ startMinutes) && decide (env.nowMinutes < endMinutes)
    | _, _ => false

/-- isQuietDay (filters.ts lines 74-78). -/
def isQuietDay (settings : FilterSettings) (env : FilterEnv) : Bool :=
  if !settings.quietDaysEnabled then false
  else if settings.quietDays.isEmpty then false
  else settings.quietDays.contains env.weekday

/-- isChannelMuted (filters.ts lines 80-84); the falsy guard covers both a
missing and an empty stream name. -/
def isChannelMuted (settings : FilterSettings) (streamName : Option String) : Bool :=
  match streamName with
  | none => false
  | some s =>
    if s.isEmpty || settings.mutedStreams.isEmpty then false
    else settings.mutedStreams.any (fun m => jsToLower m == jsToLower s)

/-- isTopicMuted (filters.ts lines 86-96): each pattern is tried as a
case-insensitive regular expression; a pattern that fails to compile falls
back to case-insensitive substring containment. -/
def isTopicMuted (settings : FilterSettings) (topic : Option String) (env : FilterEnv) : Bool :=
  match topic with
  | none => false
  | some t =>
    if t.isEmpty || settings.mutedTopics.isEmpty then false
    else settings.mutedTopics.any (fun pattern =>
      match env.regex pattern with
      | some test => test t
      | none => jsIncludes (jsToLower t) (jsToLower pattern))

/-- The self-message test of shouldNotify line 104: userId defined and equal
to the sender. -/
def matchesSelf (msg : FilterableMessage) (userId : Option Int) : Bool :=
  match userId with
  | none => false
  | some u => msg.senderId == u

/-- shouldNotify (filters.ts lines 98-143). -/
def shouldNotify (settings : FilterSettings) (msg : FilterableMessage)
    (userId : Option Int) (env : FilterEnv) : FilterResult :=
  if settings.muteSelfMessages && matchesSelf msg userId then
    { notify := false, reason := "self_message" }
  else if isQuietHours settings env then
    { notify := false, reason := "quiet_hours" }
  else if isQuietDay settings env then
    { notify := false, reason := "quiet_day" }
  else
    let isDM := msg.kind == .priv
    let isMention := msg.mentioned || msg.wildcardMentioned
    if isDM then
      if settings.notifyOnDM then { notify := true, reason := "dm" }
      else { notify := false, reason := "dm_disabled" }
    else if isMention && !settings.notifyOnMention then
      { notify := false, reason := "mention_disabled" }
    else if !isMention && !settings.notifyOnOther then
      { notify := false, reason := "other_disabled" }
    else if isChannelMuted settings msg.stream then
      { notify := false, reason := "muted_channel" }
    else if isTopicMuted settings msg.subject env then
      { notify := false, reason := "muted_topic" }
    else
      { notify := true, reason := if isMention then "mention" else "other" }

/-- messageFromZulipFlags (filters.ts lines 146-161). -/
def messageFromZulipFlags (senderId : Int) (kind : MessageKind) (flags : List String)
    (stream subject : Option String) : FilterableMessage :=
  { senderId := senderId
    kind := kind
    stream := stream
    subject := subject
    mentioned := flags.contains "mentioned"
    wildcardMentioned := flags.contains "wildcard_mentioned" }

/-! ## Specification-side decision list (spec section 4.1)

These definitions follow the wording of the specification, not the source:
a list of rules evaluated in the stated order, the first rule that fires
determining the result, with rule 8 as the default.  They exist to be
compared against shouldNotify. -/

/-- Window membership exactly as the spec words it: if start > end the
window wraps midnight and membership is now at-or-after start OR now
before end; otherwise the conjunction. -/
def quietWindowSpec (startMinutes endMinutes now : Nat) : Bool :=
  if startMinutes > endMinutes then
    decide (now ≥ startMinutes) || decide (now < endMinutes)
  else
    decide (now ≥ startMinutes) && decide (now < endMinutes)

/-- The ordered rule list of spec section 4.1, rules 1-7, written from the
spec text.  Rule 5 contributes its two suppression checks in order.  Rules
6 and 7 are the literal spec wording: equality of the stream name with a
muted entry, and a topic matching a muted pattern. -/
def specRulesStrict (settings : FilterSettings) (msg : FilterableMessage)
    (userId : Option Int) (env : FilterEnv) : List (Option FilterResult) :=
  let isMention := msg.mentioned || msg.wildcardMentioned
  [ -- 1. mute-self enabled and message sender == userId
    (if settings.muteSelfMessages && (some msg.senderId == userId) then
       some { notify := false, reason := "self_message" } else none),
    -- 2. quiet-hours enabled and current time in the configured window
    (if settings.quietHoursEnabled then
       match timeToMinutes settings.quietHoursStart, timeToMinutes settings.quietHoursEnd with
       | some s, some e =>
           if quietWindowSpec s e env.nowMinutes then
             some { notify := false, reason := "quiet_hours" } else none
       | _, _ => none
     else none),
    -- 3. quiet-days enabled and today is in the configured set
    (if settings.quietDaysEnabled && settings.quietDays.contains env.weekday then
       some { notify := false, reason := "quiet_day" } else none),
    -- 4. direct message: allow iff notify-on-DM, terminal
    (if msg.kind == .priv then
       some (if settings.notifyOnDM then { notify := true, reason := "dm" }
             else { notify := false, reason := "dm_disabled" })
     else none),
    -- 5. mentioned and notify-on-mention off
    (if isMention && !settings.notifyOnMention then
       some { notify := false, reason := "mention_disabled" } else none),
    -- 5. not mentioned and notify-on-other off
    (if !isMention && !settings.notifyOnOther then
       some { notify := false, reason := "other_disabled" } else none),
    -- 6. stream name case-insensitively equals a muted-stream entry
    (match msg.stream with
     | some s =>
         if settings.mutedStreams.any (fun m => jsToLower m == jsToLower s) then
           some { notify := false, reason := "muted_channel" } else none
     | none => none),
    -- 7. topic matches a muted-topic pattern (regex, case-insensitive;
    -- on compile failure, case-insensitive substring containment)
    (match msg.subject with
     | some t =>
         if settings.mutedTopics.any (fun pattern =>
              match env.regex pattern with
              | some test => test t
              | none => jsIncludes (jsToLower t) (jsToLower pattern)) then
           some { notify := false, reason := "muted_topic" } else none
     | none => none) ]

/-- Rule 8: otherwise allow, reason mention if mentioned else other. -/
def specAllow (msg : FilterableMessage) : FilterResult :=
  { notify := true
    reason := if msg.mentioned || msg.wildcardMentioned then "mention" else "other" }

/-- First matching rule wins, evaluated in the exact spec sequence. -/
def shouldNotifySpecStrict (settings : FilterSettings) (msg : FilterableMessage)
    (userId : Option Int) (env : FilterEnv) : FilterResult :=
  (((specRulesStrict settings msg userId env).findSome? id).getD (specAllow msg))

/-- The rule list amended at rules 6 and 7 only: an empty stream name is
never considered muted and an empty topic never matches a muted pattern,
matching the falsy-string guards of the source. -/
def specRulesAmended (settings : FilterSettings) (msg : FilterableMessage)
    (userId : Option Int) (env : FilterEnv) : List (Option FilterResult) :=
  let isMention := msg.mentioned || msg.wildcardMentioned
  [ (if settings.muteSelfMessages && (some msg.senderId == userId) then
       some { notify := false, reason := "self_message" } else none),
    (if settings.quietHoursEnabled then
       match timeToMinutes settings.quietHoursStart, timeToMinutes settings.quietHoursEnd with
       | some s, some e =>
           if quietWindowSpec s e env.nowMinutes then
             some { notify := false, reason := "quiet_hours" } else none
       | _, _ => none
     else none),
    (if settings.quietDaysEnabled && settings.quietDays.contains env.weekday then
       some { notify := false, reason := "quiet_day" } else none),
    (if msg.kind == .priv then
       some (if settings.notifyOnDM then { notify := true, reason := "dm" }
             else { notify := false, reason := "dm_disabled" })
     else none),
    (if isMention && !settings.notifyOnMention then
       some { notify := false, reason := "mention_disabled" } else none),
    (if !isMention && !settings.notifyOnOther then
       some { notify := false, reason := "other_disabled" } else none),
    (match msg.stream with
     | some s =>
         if !s.isEmpty && settings.mutedStreams.any (fun m => jsToLower m == jsToLower s) then
           some { notify := false, reason := "muted_channel" } else none
     | none => none),
    (match msg.subject with
     | some t =>
         if !t.isEmpty && settings.mutedTopics.any (fun pattern =>
              match env.regex pattern with
              | some test => test t
              | none => jsIncludes (jsToLower t) (jsToLower pattern)) then
           some { notify := false, reason := "muted_topic" } else none
     | none => none) ]

/-- First matching amended rule wins. -/
def shouldNotifySpecAmended (settings : FilterSettings) (msg : FilterableMessage)
    (userId : Option Int) (env : FilterEnv) : FilterResult :=
  (((specRulesAmended settings msg userId env).findSome? id).getD (specAllow msg))

/-! ## Event-queue client (src/lib/zulip-client.ts)

The client keeps a queue id and a last-seen event id.  A single long-poll
is modelled as a function of the current state and the outcome of the
underlying fetch: a successful JSON body, an HTTP error (the request
helper throws with a message built from status and body text), or an
abort of the in-flight request. -/

/-- An event from the long-poll response (types.ts ZulipEvent). -/
structure ClientEvent where
  id : Int
  type : String
  deriving DecidableEq, Repr

/-- The mutable state of ZulipClient relevant to polling. -/
structure ClientState where
  queueId : Option String
  lastEventId : Int
  deriving DecidableEq, Repr

/-- Outcome of the fetch underlying one getEvents call. -/
inductive FetchOutcome where
  | ok (events : List ClientEvent)
  | httpError (status : Nat) (body : String)
  | aborted

/-- The error message thrown by the request helper on a non-ok response
(zulip-client.ts line 60). -/
def apiErrorMessage (status : Nat) (body : String) : String :=
  "Zulip API error " ++ toString status ++ ": " ++ body

/-- getEvents (zulip-client.ts lines 94-135): requires a queue; on success
sets lastEventId to the id of the last element of a non-empty batch; an
abort resolves with an empty batch; an HTTP error propagates as an error
without touching the state. -/
def getEvents (st : ClientState) (outcome : FetchOutcome) :
    ClientState × Except String (List ClientEvent) :=
  match st.queueId with
  | none => (st, .error "No queue registered, call registerQueue first")
  | some _ =>
    match outcome with
    | .ok events =>
        match events.getLast? with
        | some e => ({ st with lastEventId := e.id }, .ok events)
        | none => (st, .ok events)
    | .aborted => (st, .ok [])
    | .httpError status body => (st, .error (apiErrorMessage status body))

/-- isConnected (zulip-client.ts lines 159-161). -/
def isConnected (st : ClientState) : Bool :=
  st.queueId.isSome

/-- registerQueue (zulip-client.ts lines 76-91): stores the queue id and
last event id returned by the server. -/
def registerQueue (_st : ClientState) (queueId : String) (lastEventId : Int) : ClientState :=
  { queueId := some queueId, lastEventId := lastEventId }

/-- The expiry test the web poll loop applies to a caught error message
(app.ts line 289). -/
def isQueueExpiredError (message : String) : Bool :=
  jsIncludes message "BAD_EVENT_QUEUE_ID"

/-! ## Cloud worker scheduler (worker, pollUser and incrementFailures)

The worker stores one Subscription record per push endpoint in a
key-value store.  pollUser reads, mutates and writes back only its own
record, so the store is modelled as the optional record at that key.
The network is modelled by the outcome of the registration call, the
outcome of the poll call, and the push-delivery result per message id. -/

/-- Subscription (worker index.ts lines 586-597). -/
structure Subscription where
  endpoint : String
  p256dh : String
  auth : String
  zulipServerUrl : String
  encryptedCredentials : String
  filters : FilterSettings
  queueId : Option String
  lastEventId : Int
  failures : Nat
  createdAt : Int
  updatedAt : Int
  deriving DecidableEq, Repr

/-- A message as delivered in a worker poll event (worker index.ts
lines 599-608); displayRecipient is the stream name when it is a string
and none when it is a recipient array. -/
structure WMessage where
  id : Int
  senderId : Int
  senderName : String
  content : String
  subject : String
  kind : MessageKind
  displayRecipient : Option String
  flags : List String
  deriving DecidableEq, Repr

/-- A worker poll event (worker index.ts lines 610-614). -/
structure WEvent where
  id : Int
  type : String
  message : Option WMessage
  deriving DecidableEq, Repr

/-- MAX_FAILURES (worker index.ts line 617). -/
def MAX_FAILURES : Nat := 5

/-- Result of the registration POST in pollUser. -/
inductive RegOutcome where
  | ok (queueId : String) (lastEventId : Int)
  | fail

/-- Result of the non-blocking events GET in pollUser: a 400 status, any
other failure, or a successful batch. -/
inductive WPollOutcome where
  | ok (events : List WEvent)
  | badRequest
  | fail

/-- Result of one push POST: endpoint gone (404 or 410), another non-2xx
failure, or success. -/
inductive PushOutcome where
  | gone
  | fail
  | ok

/-- The external effects of one pollUser invocation. -/
structure RoundEnv where
  regOutcome : RegOutcome
  pollOutcome : WPollOutcome
  pushOutcome : Int → PushOutcome
  filterEnv : FilterEnv

/-- incrementFailures (worker index.ts lines 889-897): bump the counter on
the in-memory record; delete the stored record once it reaches
MAX_FAILURES, otherwise write the bumped record back.  Returns the
mutated record and the new stored value. -/
def incrementFailures (sub : Subscription) : Subscription × Option Subscription :=
  let bumped := { sub with failures := sub.failures + 1 }
  if bumped.failures ≥ MAX_FAILURES then (bumped, none) else (bumped, some bumped)

/-- sendPushNotification (worker index.ts lines 899-933), reduced to its
effect on the record and the store: on 404 or 410 the stored record is
deleted; on another failure the counter is bumped via incrementFailures;
a thrown push error is swallowed. -/
def sendPushStep (sub : Subscription) (store : Option Subscription) (res : PushOutcome) :
    Subscription × Option Subscription :=
  match res with
  | .gone => (sub, none)
  | .fail => incrementFailures sub
  | .ok => (sub, store)

/-- The event loop of pollUser (worker index.ts lines 868-879): for each
message event run the filter (no user id is passed), push when it says
notify, and always advance lastEventId to the max id seen.  Also returns
the ids of the messages for which a push was attempted. -/
def processEvents (fenv : FilterEnv) (pushOutcome : Int → PushOutcome) :
    List WEvent → Subscription → Option Subscription → List Int →
    Subscription × Option Subscription × List Int
  | [], sub, store, pushed => (sub, store, pushed)
  | ev :: rest, sub, store, pushed =>
    let next :=
      if ev.type == "message" then
        match ev.message with
        | some m =>
            let fm := messageFromZulipFlags m.senderId m.kind m.flags
              m.displayRecipient (some m.subject)
            let result := shouldNotify sub.filters fm none fenv
            if result.notify then
              let step := sendPushStep sub store (pushOutcome m.id)
              (step.1, step.2, pushed ++ [m.id])
            else (sub, store, pushed)
        | none => (sub, store, pushed)
      else (sub, store, pushed)
    let sub2 := { next.1 with lastEventId := max next.1.lastEventId ev.id }
    processEvents fenv pushOutcome rest sub2 next.2.1 next.2.2

/-- The poll phase of pollUser (worker index.ts lines 846-883): a 400
status clears the queue id and stores the record; any other poll failure
bumps the counter; on success the events are processed and the record is
stored with the failure counter reset to 0 regardless of push outcomes. -/
def pollPhase (sub : Subscription) (store : Option Subscription) (env : RoundEnv) :
    Option Subscription × List Int :=
  match env.pollOutcome with
  | .badRequest => (some { sub with queueId := none }, [])
  | .fail => ((incrementFailures sub).2, [])
  | .ok events =>
      let r := processEvents env.filterEnv env.pushOutcome events sub store []
      (some { r.1 with failures := 0 }, r.2.2)

/-- pollUser (worker index.ts lines 817-887): read the record; register a
queue when there is none, bumping the counter and stopping on registration
failure; then poll.  Returns the stored record after the call and the ids
pushed. -/
def pollUser (store : Option Subscription) (env : RoundEnv) :
    Option Subscription × List Int :=
  match store with
  | none => (none, [])
  | some sub =>
    match sub.queueId with
    | none =>
      match env.regOutcome with
      | .fail => ((incrementFailures sub).2, [])
      | .ok qid lid =>
          let sub1 := { sub with queueId := some qid, lastEventId := lid }
          pollPhase sub1 (some sub1) env
    | some _ => pollPhase sub store env

/-! ## Push payload padding (web-push.ts encryptPayload, lines 176-181)

The padding step builds a zero-initialised buffer of
2 + paddingSize + payload length bytes, writes the padding size as a
16-bit big-endian field at offset 0, and copies the payload at offset
2 + paddingSize.  paddingSize is the minimum of the random draw and
4078 - payload length - 2 and may be negative: the buffer size is then
4078 (the two terms cancel), setUint16 stores the value modulo 2 to the
16 and always stays in range (the buffer has at least 2 + rand bytes
when paddingSize is the draw and 4078 bytes otherwise), and the only
step that can throw is the typed-array copy, whose offset
2 + paddingSize is negative exactly for payloads of 4079 bytes or more
(modelled as none).  Payloads of 4077 and 4078 bytes are accepted with
a wrapped length field partly or fully overwritten by the plaintext. -/

/-- TypedArray.prototype.set semantics for an in-range write. -/
def setBytes (arr : List Nat) (offset : Nat) (vals : List Nat) : List Nat :=
  arr.take offset ++ vals ++ arr.drop (offset + vals.length)

/-- The padded plaintext buffer of encryptPayload.  rand models the draw
Math.round(Math.random() * 16). -/
def padPayload (payload : List Nat) (rand : Nat) : Option (List Nat) :=
  let paddingSize : Int := min (rand : Int) (4078 - (payload.length : Int) - 2)
  if 2 + paddingSize < 0 then none
  else
    let offset := (2 + paddingSize).toNat
    let field := (paddingSize % 65536).toNat
    let buf := List.replicate (offset + payload.length) 0
    let buf1 := setBytes buf 0 [field / 256, field % 256]
    some (setBytes buf1 offset payload)

/-! ## Base64 (btoa and atob over byte values)

The worker builds btoa(String.fromCharCode(...bytes)) and reads it back
with atob; this is plain base64 over the byte values, implemented here
concretely so the credential round trip rests on a proved codec. -/

/-- The base64 alphabet. -/
def base64Alphabet : List Char :=
  "ABCDEFGHIJKLMNOPQRSTUVWXYZabcdefghijklmnopqrstuvwxyz0123456789+/".data

/-- Character for a sextet value. -/
def sextetChar (n : Nat) : Char :=
  base64Alphabet.getD n 'A'

/-- Sextet value of a character, none for a character outside the
alphabet. -/
def sextetVal (c : Char) : Option Nat :=
  base64Alphabet.findIdx? (fun a => a == c)

/-- Encode bytes in groups of three, padding the tail group with the
padding character. -/
def encodeGroups : List Nat → List Char
  | [] => []
  | [a] => [sextetChar (a / 4), sextetChar ((a % 4) * 16), '=', '=']
  | [a, b] => [sextetChar (a / 4), sextetChar ((a % 4) * 16 + b / 16),
               sextetChar ((b % 16) * 4), '=']
  | a :: b :: c :: rest =>
      sextetChar (a / 4) :: sextetChar ((a % 4) * 16 + b / 16) ::
      sextetChar ((b % 16) * 4 + c / 64) :: sextetChar (c % 64) :: encodeGroups rest

/-- Decode base64 characters in groups of four; malformed input decodes to
none, matching the exception atob raises. -/
def decodeGroups : List Char → Option (List Nat)
  | [] => some []
  | w :: x :: y :: z :: rest =>
    (match sextetVal w, sextetVal x with
     | some wv, some xv =>
       if y == '=' then
         if z == '=' && rest.isEmpty then some [wv * 4 + xv / 16] else none
       else
         match sextetVal y with
         | some yv =>
           if z == '=' then
             if rest.isEmpty then some [wv * 4 + xv / 16, (xv % 16) * 16 + yv / 4]
             else none
           else
             match sextetVal z, decodeGroups rest with
             | some zv, some tail =>
                 some ([wv * 4 + xv / 16, (xv % 16) * 16 + yv / 4,
                        (yv % 4) * 64 + zv] ++ tail)
             | _, _ => none
         | none => none
     | _, _ => none)
  | _ => none

/-- btoa over byte values (worker crypto.ts line 90). -/
def btoaBytes (bytes : List Nat) : String :=
  String.mk (encodeGroups bytes)

/-- atob back to byte values (worker crypto.ts line 102). -/
def atobBytes (s : String) : Option (List Nat) :=
  decodeGroups s.data

/-! ## Credential vault (worker crypto.ts)

encryptCredentials derives a per-user AES key from the master secret and
a salt string built from the user id, serialises the email and api key,
encrypts with a random 12-byte IV, prepends the IV to the ciphertext and
base64-encodes the combination; decryptCredentials inverts each step.
The cryptographic and serialisation primitives are parameters: kdf
abstracts the PBKDF2-SHA-256 (100000 iterations) AES-256 key derivation,
aesEnc and aesDec abstract AES-GCM, and ser and deser abstract
utf8(JSON.stringify) of the email and api-key pair and its inverse. -/

/-- The per-user key-derivation salt string (crypto.ts line 56). -/
def deriveKeySaltString (userId : String) : String :=
  "zulip-pusher-v1:" ++ userId

/-- encryptCredentials (crypto.ts lines 68-91). -/
def encryptCredentials
    (aesEnc : List Nat → List Nat → List Nat → List Nat)
    (kdf : String → String → List Nat)
    (ser : String → String → List Nat)
    (masterSecret userId email apiKey : String) (iv : List Nat) : String :=
  let key := kdf masterSecret (deriveKeySaltString userId)
  let encrypted := aesEnc key iv (ser email apiKey)
  let combined := iv ++ encrypted
  btoaBytes combined

/-- decryptCredentials (crypto.ts lines 94-116). -/
def decryptCredentials
    (aesDec : List Nat → List Nat → List Nat → Option (List Nat))
    (kdf : String → String → List Nat)
    (deser : List Nat → Option (String × String))
    (masterSecret userId : String) (encryptedData : String) :
    Option (String × String) := do
  let key := kdf masterSecret (deriveKeySaltString userId)
  let combined ← atobBytes encryptedData
  let iv := combined.take 12
  let ciphertext := combined.drop 12
  let decrypted ← aesDec key iv ciphertext
  deser decrypted

/-! ## Concrete inputs used by counterexamples and witnesses -/

/-- An evaluation context with a regular-expression engine on which every
pattern fails to compile. -/
def noRegexEnv : FilterEnv :=
  { nowMinutes := 600, weekday := 2, regex := fun _ => none }

/-- Settings that allow plain stream messages, with an empty string in the
muted-stream list. -/
def c1Settings : FilterSettings :=
  { DEFAULT_FILTER_SETTINGS with
    notifyOnOther := true
    muteSelfMessages := false
    mutedStreams := [""] }

/-- A stream message whose stream name is the empty string. -/
def c1Msg : FilterableMessage :=
  { senderId := 1, kind := .stream, stream := some "", subject := none,
    mentioned := false, wildcardMentioned := false }

/-- The poll batch with event ids 5, 7, 6 named by the specification. -/
def c2Events : List ClientEvent :=
  [{ id := 5, type := "message" }, { id := 7, type := "message" },
   { id := 6, type := "message" }]

/-- A queue-expired response body carrying the distinguished error code. -/
def c7Body : String :=
  "result error code BAD_EVENT_QUEUE_ID Bad event queue id"

/-- Filter settings that allow DMs, with every quiet feature off and
mute-self on. -/
def dmFilters : FilterSettings :=
  { notifyOnMention := true, notifyOnDM := true, notifyOnOther := false,
    muteSelfMessages := true, mutedStreams := [], mutedTopics := [],
    quietHoursEnabled := false, quietHoursStart := "22:00", quietHoursEnd := "07:00",
    quietDaysEnabled := false, quietDays := [] }

/-- A direct message used by the DM-terminal witness. -/
def dmMsg : FilterableMessage :=
  { senderId := 3, kind := .priv, stream := none, subject := none,
    mentioned := false, wildcardMentioned := false }

/-- Settings whose muted-topic list holds a single pattern that is not a
valid regular expression. -/
def invalidPatternSettings : FilterSettings :=
  { DEFAULT_FILTER_SETTINGS with mutedTopics := ["(sync"] }

/-- A subscription that has already accumulated 4 failures. -/
def subAtFour : Subscription :=
  { endpoint := "https://push.example/ep", p256dh := "p", auth := "a",
    zulipServerUrl := "https://chat.example", encryptedCredentials := "blob",
    filters := dmFilters, queueId := some "queue-1", lastEventId := 0,
    failures := 4, createdAt := 0, updatedAt := 0 }

/-- One poll round delivering a single DM whose push POST fails with a
retriable status. -/
def roundPushFail : RoundEnv :=
  { regOutcome := .fail
    pollOutcome := .ok
      [{ id := 1, type := "message",
         message := some { id := 1, senderId := 7, senderName := "sender",
                           content := "hi", subject := "", kind := .priv,
                           displayRecipient := none, flags := [] } }]
    pushOutcome := fun _ => .fail
    filterEnv := noRegexEnv }

/-- A healthy subscription whose owner is the sender of the next message. -/
def subSelf : Subscription :=
  { subAtFour with failures := 0 }

/-- One poll round delivering a DM sent by the subscriber, with push
delivery succeeding. -/
def roundSelfDM : RoundEnv :=
  { regOutcome := .fail
    pollOutcome := .ok
      [{ id := 9, type := "message",
         message := some { id := 9, senderId := 7, senderName := "me",
                           content := "note to self", subject := "", kind := .priv,
                           displayRecipient := none, flags := [] } }]
    pushOutcome := fun _ => .ok
    filterEnv := noRegexEnv }

/-- The FilterableMessage the worker builds for the self-sent DM above. -/
def selfDMMessage : FilterableMessage :=
  messageFromZulipFlags 7 .priv [] none (some "")

/-- A 4077-byte payload, one byte past the largest payload the padding
layout is valid for. -/
def c8Payload : List Nat := List.replicate 4077 7

/-! ## Helper lemmas -/

theorem listContainsSub_append (t s pat : List Char)
    (h : listContainsSub s pat = true) : listContainsSub (t ++ s) pat = true := by
  induction t with
  | nil => simpa using h
  | cons a t ih =>
    rw [listContainsSub.eq_def]
    by_cases hp : hasPrefixChars (a :: (t ++ s)) pat
    · simp [hp]
    · simp [hp, ih]

theorem jsIncludes_append_left (t s pat : String)
    (h : jsIncludes s pat = true) : jsIncludes (t ++ s) pat = true := by
  unfold jsIncludes at h ⊢
  rw [String.data_append]
  exact listContainsSub_append _ _ _ h

theorem matchesSelf_eq (msg : FilterableMessage) (userId : Option Int) :
    matchesSelf msg userId = (some msg.senderId == userId) := by
  cases userId <;> rfl

theorem isQuietDay_eq (s : FilterSettings) (env : FilterEnv) :
    isQuietDay s env = (s.quietDaysEnabled && s.quietDays.contains env.weekday) := by
  unfold isQuietDay
  cases s.quietDaysEnabled with
  | false => simp
  | true => cases hl : s.quietDays <;> simp [hl]

theorem quietRule_eq (s : FilterSettings) (env : FilterEnv) (r : FilterResult) :
    (if s.quietHoursEnabled then
       match timeToMinutes s.quietHoursStart, timeToMinutes s.quietHoursEnd with
       | some a, some b => if quietWindowSpec a b env.nowMinutes then some r else none
       | _, _ => none
     else none)
    = (if isQuietHours s env then some r else none) := by
  unfold isQuietHours quietWindowSpec
  cases s.quietHoursEnabled with
  | false => simp
  | true =>
    simp only [Bool.not_true, Bool.false_eq_true, if_false]
    cases h1 : timeToMinutes s.quietHoursStart with
    | none => simp
    | some a =>
      cases h2 : timeToMinutes s.quietHoursEnd with
      | none => simp
      | some b =>
        by_cases hw : (if a > b then decide (env.nowMinutes ≥ a) || decide (env.nowMinutes < b)
            else decide (env.nowMinutes ≥ a) && decide (env.nowMinutes < b)) = true
        · simp [hw]
        · simp [hw]

theorem channelRule_eq (settings : FilterSettings) (st : Option String) (r : FilterResult) :
    (match st with
     | some s =>
         if !s.isEmpty && settings.mutedStreams.any (fun m => jsToLower m == jsToLower s) then
           some r else none
     | none => none)
    = (if isChannelMuted settings st then some r else none) := by
  cases st with
  | none => simp [isChannelMuted]
  | some s =>
    unfold isChannelMuted
    cases he : s.isEmpty with
    | true => simp [he]
    | false =>
      cases hm : settings.mutedStreams.isEmpty with
      | true =>
        have hnil : settings.mutedStreams = [] := List.isEmpty_iff.mp hm
        simp [he, hm, hnil]
      | false => simp [he, hm]

theorem topicRule_eq (settings : FilterSettings) (tp : Option String) (env : FilterEnv)
    (r : FilterResult) :
    (match tp with
     | some t =>
         if !t.isEmpty && settings.mutedTopics.any (fun pattern =>
              match env.regex pattern with
              | some test => test t
              | none => jsIncludes (jsToLower t) (jsToLower pattern)) then
           some r else none
     | none => none)
    = (if isTopicMuted settings tp env then some r else none) := by
  cases tp with
  | none => simp [isTopicMuted]
  | some t =>
    unfold isTopicMuted
    cases he : t.isEmpty with
    | true => simp [he]
    | false =>
      cases hm : settings.mutedTopics.isEmpty with
      | true =>
        have hnil : settings.mutedTopics = [] := List.isEmpty_iff.mp hm
        simp [he, hm, hnil]
      | false => simp [he, hm]

set_option maxHeartbeats 1600000 in
theorem shouldNotify_reason_mem (s : FilterSettings) (m : FilterableMessage)
    (uid : Option Int) (e : FilterEnv) :
    (shouldNotify s m uid e).reason ∈
      (["self_message", "quiet_hours", "quiet_day", "dm", "dm_disabled", "mention_disabled",
        "other_disabled", "muted_channel", "muted_topic", "mention", "other"] : List String) := by
  simp only [shouldNotify]
  split_ifs <;> decide

theorem isTopicMuted_invalid_regex_fallback (s : FilterSettings) (topic : String)
    (e : FilterEnv) (pattern : String)
    (hp : pattern ∈ s.mutedTopics)
    (hc : e.regex pattern = none)
    (hne : topic.isEmpty = false)
    (hsub : jsIncludes (jsToLower topic) (jsToLower pattern) = true) :
    isTopicMuted s (some topic) e = true := by
  have hnem : s.mutedTopics.isEmpty = false := by
    cases hm : s.mutedTopics with
    | nil => rw [hm] at hp; cases hp
    | cons a l => rfl
  simp only [isTopicMuted]
  rw [hne, hnem]
  simp only [Bool.or_self, Bool.false_eq_true, if_false]
  rw [List.any_eq_true]
  refine ⟨pattern, hp, ?_⟩
  rw [hc]
  exact hsub

theorem shouldNotify_none_ignores_mute_self (s : FilterSettings) (m : FilterableMessage)
    (e : FilterEnv) :
    shouldNotify s m none e
      = shouldNotify { s with muteSelfMessages := false } m none e := by
  simp [shouldNotify, matchesSelf, isQuietHours, isQuietDay, isChannelMuted, isTopicMuted]

set_option maxHeartbeats 1600000 in
theorem shouldNotify_none_reason_ne_self (s : FilterSettings) (m : FilterableMessage)
    (e : FilterEnv) :
    (shouldNotify s m none e).reason ≠ "self_message" := by
  have hms : matchesSelf m none = false := rfl
  simp only [shouldNotify, hms, Bool.and_false, Bool.false_eq_true, if_false]
  split_ifs <;> decide

theorem sextetVal_sextetChar : ∀ n, n < 64 → sextetVal (sextetChar n) = some n := by decide

theorem sextetChar_ne_pad : ∀ n, n < 64 → (sextetChar n == '=') = false := by decide

theorem decodeGroups_encodeGroups :
    ∀ bs : List Nat, (∀ b ∈ bs, b < 256) → decodeGroups (encodeGroups bs) = some bs := by
  intro bs
  induction bs using encodeGroups.induct with
  | case1 =>
    intro _
    rfl
  | case2 a =>
    intro h
    have ha : a < 256 := h a (by simp)
    rw [encodeGroups, decodeGroups]
    rw [sextetVal_sextetChar _ (by omega), sextetVal_sextetChar _ (by omega)]
    simp only [List.isEmpty_nil, Bool.and_true]
    norm_num
    omega
  | case3 a b =>
    intro h
    have ha : a < 256 := h a (by simp)
    have hb : b < 256 := h b (by simp)
    rw [encodeGroups, decodeGroups]
    rw [sextetVal_sextetChar _ (by omega), sextetVal_sextetChar _ (by omega),
      sextetVal_sextetChar _ (by omega)]
    rw [sextetChar_ne_pad _ (by omega)]
    simp only [List.isEmpty_nil, if_true]
    norm_num
    constructor <;> omega
  | case4 a b c rest ih =>
    intro h
    have ha : a < 256 := h a (by simp)
    have hb : b < 256 := h b (by simp)
    have hc : c < 256 := h c (by simp)
    have hrest : ∀ x ∈ rest, x < 256 := fun x hx => h x (by simp [hx])
    rw [encodeGroups, decodeGroups]
    rw [sextetVal_sextetChar _ (by omega), sextetVal_sextetChar _ (by omega),
      sextetVal_sextetChar _ (by omega), sextetVal_sextetChar _ (by omega)]
    rw [sextetChar_ne_pad _ (by omega), sextetChar_ne_pad _ (by omega)]
    rw [ih hrest]
    norm_num
    refine ⟨by omega, by omega, by omega⟩

theorem atobBytes_btoaBytes (bs : List Nat) (h : ∀ b ∈ bs, b < 256) :
    atobBytes (btoaBytes bs) = some bs := by
  unfold atobBytes btoaBytes
  exact decodeGroups_encodeGroups bs h

theorem padPayload_at_4077 (payload : List Nat) (rand : Nat)
    (h : payload.length = 4077) :
    padPayload payload rand = some (255 :: payload) := by
  have hpi : min ((rand : Nat) : Int) (4078 - ((payload.length : Nat) : Int) - 2) = -1 := by
    omega
  have e1 : setBytes (List.replicate 4078 (0 : Nat)) 0 [255, 255]
      = 255 :: 255 :: List.replicate 4076 0 := by
    show (List.replicate 4078 (0 : Nat)).take 0 ++ [255, 255]
        ++ (List.replicate 4078 (0 : Nat)).drop 2 = _
    rw [List.take_zero, List.nil_append, List.drop_replicate]
    rfl
  have e2 : setBytes (255 :: 255 :: List.replicate 4076 (0 : Nat)) 1 payload
      = 255 :: payload := by
    show (255 :: 255 :: List.replicate 4076 (0 : Nat)).take 1 ++ payload
        ++ (255 :: 255 :: List.replicate 4076 (0 : Nat)).drop (1 + payload.length)
        = 255 :: payload
    rw [h]
    have hlen2 : (255 :: 255 :: List.replicate 4076 (0 : Nat)).length ≤ 1 + 4077 := by
      rw [List.length_cons, List.length_cons, List.length_replicate]
    rw [List.drop_eq_nil_of_le hlen2, List.append_nil]
    rfl
  simp only [padPayload]
  rw [hpi]
  rw [if_neg (by omega : ¬((2 : Int) + -1 < 0))]
  rw [show ((2 : Int) + -1).toNat = 1 from rfl]
  rw [show ((-1 : Int) % 65536).toNat = 65535 from rfl]
  rw [show (65535 / 256 : Nat) = 255 from rfl]
  rw [show (65535 % 256 : Nat) = 255 from rfl]
  rw [h]
  rw [show (1 + 4077 : Nat) = 4078 from rfl]
  rw [e1, e2]

/-! ## Claim theorems -/

/-- Claim C1, counterexample to the claim as stated: with an empty stream
name and an empty string in the muted-stream list, the literal spec rule 6
(case-insensitive equality with a muted entry) fires, but shouldNotify does
not suppress, because isChannelMuted treats a falsy stream name as never
muted; so the code does not evaluate the rules exactly as the spec words
them. -/
theorem C1_counterexample :
    shouldNotify c1Settings c1Msg none noRegexEnv
      ≠ shouldNotifySpecStrict c1Settings c1Msg none noRegexEnv := by decide

set_option maxHeartbeats 3200000 in
/-- Claim C1, amended: shouldNotify equals first-match evaluation of the
spec rule sequence, with rules 6 and 7 amended so that an empty stream
name is never considered muted and an empty topic never matches a
muted-topic pattern. -/
theorem C1_first_match (settings : FilterSettings) (msg : FilterableMessage)
    (userId : Option Int) (env : FilterEnv) :
    shouldNotify settings msg userId env = shouldNotifySpecAmended settings msg userId env := by
  unfold shouldNotifySpecAmended specRulesAmended
  rw [quietRule_eq settings env, channelRule_eq, topicRule_eq]
  unfold shouldNotify
  rw [matchesSelf_eq, isQuietDay_eq]
  simp only [List.findSome?_cons, List.findSome?_nil, id_eq]
  simp
  split_ifs <;> first | rfl | (unfold specAllow; simp_all)

/-- Claim C2, counterexample: after a poll returning events with ids
5, 7, 6 the client holds lastEventId 6 — the id of the last array
element — not the maximum 7 that the claim states. -/
theorem C2_counterexample :
    (getEvents { queueId := some "q", lastEventId := -1 } (.ok c2Events)).1.lastEventId = 6
    ∧ ((6 : Int) ≠ 7) := ⟨rfl, by decide⟩

/-- Claim C2, amended: on a successful poll with a non-empty batch,
getEvents advances lastEventId to the id of the last event in the array
(which equals the maximum only when event ids arrive in non-decreasing
order). -/
theorem C2_advances_to_last_element (q : String) (lid : Int)
    (events : List ClientEvent) (e : ClientEvent)
    (h : events.getLast? = some e) :
    getEvents { queueId := some q, lastEventId := lid } (.ok events)
      = ({ queueId := some q, lastEventId := e.id }, .ok events) := by
  simp [getEvents, h]

/-- Witness for C2: the amended statement evaluated on the batch 5, 7, 6. -/
theorem C2_advances_to_last_element_witness :
    getEvents { queueId := some "q", lastEventId := -1 } (.ok c2Events)
      = ({ queueId := some "q", lastEventId := 6 }, .ok c2Events) :=
  C2_advances_to_last_element "q" (-1) c2Events { id := 6, type := "message" } rfl

set_option maxHeartbeats 1600000 in
/-- Claim C3: a direct message that passes the mute-self, quiet-hours and
quiet-days rules is decided solely by notifyOnDM — allow with reason dm
when it is on, suppress with reason dm_disabled when it is off — and the
mention, other, muted-stream and muted-topic settings never change the
result. -/
theorem C3_dm_terminal (settings : FilterSettings) (msg : FilterableMessage)
    (userId : Option Int) (env : FilterEnv)
    (hkind : msg.kind = .priv)
    (hself : (settings.muteSelfMessages && matchesSelf msg userId) = false)
    (hqh : isQuietHours settings env = false)
    (hqd : isQuietDay settings env = false) :
    shouldNotify settings msg userId env
      = (if settings.notifyOnDM then { notify := true, reason := "dm" }
         else { notify := false, reason := "dm_disabled" })
    ∧ ∀ (nm no : Bool) (ms mt : List String),
        shouldNotify { settings with
          notifyOnMention := nm, notifyOnOther := no
          mutedStreams := ms, mutedTopics := mt } msg userId env
          = shouldNotify settings msg userId env := by
  have h2 : ∀ (nm no : Bool) (ms mt : List String),
      shouldNotify { settings with
        notifyOnMention := nm, notifyOnOther := no
        mutedStreams := ms, mutedTopics := mt } msg userId env
        = (if settings.notifyOnDM then ({ notify := true, reason := "dm" } : FilterResult)
           else { notify := false, reason := "dm_disabled" }) := by
    intro nm no ms mt
    have hqh2 : isQuietHours { settings with
        notifyOnMention := nm, notifyOnOther := no
        mutedStreams := ms, mutedTopics := mt } env = false := hqh
    have hqd2 : isQuietDay { settings with
        notifyOnMention := nm, notifyOnOther := no
        mutedStreams := ms, mutedTopics := mt } env = false := hqd
    have hself2 : (({ settings with
        notifyOnMention := nm, notifyOnOther := no
        mutedStreams := ms, mutedTopics := mt } : FilterSettings).muteSelfMessages
        && matchesSelf msg userId) = false := hself
    simp only [shouldNotify, hkind, hself2, hqh2, hqd2]
    simp
  have h1 : shouldNotify settings msg userId env
      = (if settings.notifyOnDM then ({ notify := true, reason := "dm" } : FilterResult)
         else { notify := false, reason := "dm_disabled" }) := by
    simp only [shouldNotify, hkind, hself, hqh, hqd]
    simp
  refine ⟨h1, fun nm no ms mt => ?_⟩
  rw [h1, h2]

/-- Witness for C3: the DM-terminal statement evaluated on a concrete
direct message under the default-like settings. -/
theorem C3_dm_terminal_witness :
    shouldNotify dmFilters dmMsg none noRegexEnv
      = (if dmFilters.notifyOnDM then { notify := true, reason := "dm" }
         else { notify := false, reason := "dm_disabled" })
    ∧ ∀ (nm no : Bool) (ms mt : List String),
        shouldNotify { dmFilters with
          notifyOnMention := nm, notifyOnOther := no
          mutedStreams := ms, mutedTopics := mt } dmMsg none noRegexEnv
          = shouldNotify dmFilters dmMsg none noRegexEnv :=
  C3_dm_terminal dmFilters dmMsg none noRegexEnv rfl (by decide) rfl rfl

/-- Claim C4: shouldNotify is total with a reason drawn from the fixed
enumeration, and a muted-topic pattern that fails to compile as a regular
expression falls back to case-insensitive substring containment instead of
failing the check. -/
theorem C4_total_and_regex_fallback :
    (∀ (settings : FilterSettings) (msg : FilterableMessage) (userId : Option Int)
        (env : FilterEnv),
      (shouldNotify settings msg userId env).reason ∈
        (["self_message", "quiet_hours", "quiet_day", "dm", "dm_disabled", "mention_disabled",
          "other_disabled", "muted_channel", "muted_topic", "mention", "other"] : List String))
    ∧ (∀ (settings : FilterSettings) (topic : String) (env : FilterEnv) (pattern : String),
        pattern ∈ settings.mutedTopics →
        env.regex pattern = none →
        topic.isEmpty = false →
        jsIncludes (jsToLower topic) (jsToLower pattern) = true →
        isTopicMuted settings (some topic) env = true) :=
  ⟨shouldNotify_reason_mem, isTopicMuted_invalid_regex_fallback⟩

/-- Witness for C4: the invalid pattern of the spec example (an unbalanced
opening parenthesis) still mutes a topic containing it as a substring. -/
theorem C4_total_and_regex_fallback_witness :
    isTopicMuted invalidPatternSettings (some "Weekly (Sync) Meeting") noRegexEnv = true :=
  C4_total_and_regex_fallback.2 invalidPatternSettings "Weekly (Sync) Meeting" noRegexEnv
    "(sync" (by decide) rfl rfl (by decide)

/-- Claim C5, evaluation at the failing input: a subscription with 4
accumulated failures is polled successfully, the single delivered DM
notifies, and the push fails with a retriable status.  incrementFailures
raises the counter to 5 and deletes the record, but the success path at
the end of pollUser writes the record back with failures reset to 0, so
the subscription is still stored after the round — against the eviction
invariant the claim states for push-delivery failures. -/
theorem C5_push_eviction_undone :
    (incrementFailures subAtFour).2 = none
    ∧ pollUser (some subAtFour) roundPushFail
        = (some { subAtFour with lastEventId := 1, failures := 0 }, [1]) := by
  constructor
  · rfl
  · rfl

/-- Claim C6: an abort of the in-flight long-poll resolves getEvents with
an empty batch rather than an error and leaves the client state, queue id
included, unchanged. -/
theorem C6_abort_resolves_empty (q : String) (lid : Int) :
    getEvents { queueId := some q, lastEventId := lid } .aborted
      = ({ queueId := some q, lastEventId := lid }, .ok []) := rfl

/-- Claim C7, counterexample: after a poll fails with the queue-expired
signature the client still holds its old queue id and isConnected is
true — the claim states queueId is set to null and isConnected becomes
false. -/
theorem C7_counterexample :
    ((getEvents { queueId := some "q", lastEventId := 5 } (.httpError 400 c7Body)).1.queueId
        = some "q")
    ∧ isConnected (getEvents { queueId := some "q", lastEventId := 5 }
        (.httpError 400 c7Body)).1 = true := ⟨rfl, rfl⟩

/-- Claim C7, amended: a poll failing with the expiry signature leaves the
client state unchanged (queue id kept, lastEventId not advanced) and
surfaces an error whose message carries the BAD_EVENT_QUEUE_ID code that
the poll loop pattern-matches; recovery happens because the loop then
calls registerQueue directly, which installs a fresh queue id and leaves
the client connected. -/
theorem C7_expiry_surfaced_and_reregister (q : String) (lid : Int) (status : Nat)
    (body : String)
    (h : jsIncludes body "BAD_EVENT_QUEUE_ID" = true) :
    getEvents { queueId := some q, lastEventId := lid } (.httpError status body)
      = ({ queueId := some q, lastEventId := lid }, .error (apiErrorMessage status body))
    ∧ isQueueExpiredError (apiErrorMessage status body) = true
    ∧ (∀ (qid : String) (lid2 : Int),
        isConnected (registerQueue { queueId := some q, lastEventId := lid } qid lid2)
          = true) := by
  refine ⟨rfl, ?_, fun _ _ => rfl⟩
  unfold isQueueExpiredError apiErrorMessage
  exact jsIncludes_append_left _ _ _ h

/-- Witness for C7: the amended statement evaluated on a concrete
queue-expired response body. -/
theorem C7_expiry_surfaced_and_reregister_witness :
    (getEvents { queueId := some "q", lastEventId := 5 } (.httpError 400 c7Body)
      = ({ queueId := some "q", lastEventId := 5 }, .error (apiErrorMessage 400 c7Body)))
    ∧ isQueueExpiredError (apiErrorMessage 400 c7Body) = true
    ∧ (∀ (qid : String) (lid2 : Int),
        isConnected (registerQueue { queueId := some "q", lastEventId := 5 } qid lid2)
          = true) :=
  C7_expiry_surfaced_and_reregister "q" 5 400 c7Body (by decide)

/-- Claim C8, counterexample: a 4077-byte payload is accepted by the codec
(the typed-array copy at offset 1 is in range), but the buffer it passes
to AES-128-GCM is the byte 255 followed by the plaintext — the wrapped
length field, overwritten in part by the plaintext — and no padding count
realises the claimed field-padding-plaintext layout for it. -/
theorem C8_counterexample :
    padPayload c8Payload 0 = some (255 :: c8Payload)
    ∧ ¬ ∃ ps : Nat, 255 :: c8Payload
        = ps / 256 :: ps % 256 :: (List.replicate ps 0 ++ c8Payload) := by
  constructor
  · exact padPayload_at_4077 c8Payload 0 (by simp only [c8Payload, List.length_replicate])
  · rintro ⟨ps, hcontra⟩
    have hl := congrArg List.length hcontra
    simp only [c8Payload, List.length_cons, List.length_append, List.length_replicate] at hl
    omega

/-- Claim C8, amended: for every accepted payload of at most 4076 bytes the
padded buffer consists of a 2-byte big-endian padding-length field, that
many padding bytes, then the plaintext, and its total length never exceeds
4078 bytes; payloads of 4079 bytes or more are rejected (the copy offset
is negative, so the typed-array set throws).  Payloads of 4077 and 4078
bytes are accepted but violate the layout, as the counterexample shows. -/
theorem C8_padding_layout :
    (∀ (payload : List Nat) (rand : Nat) (padded : List Nat),
      padPayload payload rand = some padded →
      payload.length ≤ 4076 →
      ∃ ps : Nat,
        ps = min rand (4076 - payload.length)
        ∧ padded = ps / 256 :: ps % 256 :: (List.replicate ps 0 ++ payload)
        ∧ (ps / 256) * 256 + ps % 256 = ps
        ∧ padded.length ≤ 4078)
    ∧ (∀ (payload : List Nat) (rand : Nat),
        4079 ≤ payload.length → padPayload payload rand = none) := by
  constructor
  · intro payload rand padded h hlen
    have hneg : ¬(2 + min (rand : Int) (4078 - (payload.length : Int) - 2) < 0) := by omega
    simp only [padPayload, hneg, if_false] at h
    set pi := min (rand : Int) (4078 - (payload.length : Int) - 2) with hpidef
    have hoff : (2 + pi).toNat = 2 + pi.toNat := by omega
    have hfield : (pi % 65536).toNat = pi.toNat := by omega
    rw [hoff, hfield] at h
    set ps := pi.toNat with hpsdef
    have hpsv : ps = min rand (4076 - payload.length) := by omega
    have hbound : ps + payload.length ≤ 4076 := by omega
    injection h with h2
    have e1 : setBytes (List.replicate (2 + ps + payload.length) 0) 0 [ps / 256, ps % 256]
        = ps / 256 :: ps % 256 :: List.replicate (ps + payload.length) 0 := by
      simp [setBytes, List.drop_replicate]
      omega
    have e2 : setBytes (ps / 256 :: ps % 256 :: List.replicate (ps + payload.length) 0)
        (2 + ps) payload
        = ps / 256 :: ps % 256 :: (List.replicate ps 0 ++ payload) := by
      simp only [setBytes]
      rw [show 2 + ps = ps + 1 + 1 from by omega]
      simp [List.take_succ_cons, List.drop_succ_cons, List.take_replicate, List.drop_replicate]
      omega
    rw [e1] at h2
    rw [e2] at h2
    refine ⟨ps, hpsv, h2.symm, by omega, ?_⟩
    rw [← h2]
    simp
    omega
  · intro payload rand hlen
    have hneg : 2 + min (rand : Int) (4078 - (payload.length : Int) - 2) < 0 := by omega
    simp [padPayload, hneg]

/-- Witness for C8: the amended layout statement evaluated on a 2-byte
payload with a padding draw of 3. -/
theorem C8_padding_layout_witness :
    ∃ ps : Nat,
      ps = min 3 (4076 - ([104, 105] : List Nat).length)
      ∧ ([0, 3, 0, 0, 0, 104, 105] : List Nat)
          = ps / 256 :: ps % 256 :: (List.replicate ps 0 ++ [104, 105])
      ∧ (ps / 256) * 256 + ps % 256 = ps
      ∧ ([0, 3, 0, 0, 0, 104, 105] : List Nat).length ≤ 4078 :=
  C8_padding_layout.1 [104, 105] 3 [0, 3, 0, 0, 0, 104, 105] (by decide) (by decide)

/-- Claim C9: decrypting the output of encryptCredentials with the same
master secret and user id recovers the original email and api key, for any
choice of the random 12-byte IV, given the contracts of the abstracted
primitives (AES-GCM decrypt inverts encrypt, the serialiser is inverted by
the deserialiser, ciphertext and IV are byte values); the base64 leg is
the concrete proved codec. -/
theorem C9_roundtrip
    (aesEnc : List Nat → List Nat → List Nat → List Nat)
    (aesDec : List Nat → List Nat → List Nat → Option (List Nat))
    (kdf : String → String → List Nat)
    (ser : String → String → List Nat)
    (deser : List Nat → Option (String × String))
    (masterSecret userId email apiKey : String) (iv : List Nat)
    (hivLen : iv.length = 12)
    (hivB : ∀ b ∈ iv, b < 256)
    (hencB : ∀ b ∈ aesEnc (kdf masterSecret (deriveKeySaltString userId)) iv
        (ser email apiKey), b < 256)
    (hdec : aesDec (kdf masterSecret (deriveKeySaltString userId)) iv
        (aesEnc (kdf masterSecret (deriveKeySaltString userId)) iv (ser email apiKey))
        = some (ser email apiKey))
    (hdeser : deser (ser email apiKey) = some (email, apiKey)) :
    decryptCredentials aesDec kdf deser masterSecret userId
      (encryptCredentials aesEnc kdf ser masterSecret userId email apiKey iv)
      = some (email, apiKey) := by
  unfold encryptCredentials decryptCredentials
  have hcomb : ∀ b ∈ iv ++ aesEnc (kdf masterSecret (deriveKeySaltString userId)) iv
      (ser email apiKey), b < 256 := by
    intro b hb
    rcases List.mem_append.mp hb with hb | hb
    · exact hivB b hb
    · exact hencB b hb
  rw [atobBytes_btoaBytes _ hcomb]
  simp only [Option.bind_eq_bind, Option.some_bind]
  rw [← hivLen, List.take_left, List.drop_left]
  rw [hdec]
  simp only [Option.some_bind]
  exact hdeser

/-- Witness for C9: the round trip evaluated with concrete primitives that
satisfy the stated contracts at the chosen credentials. -/
theorem C9_roundtrip_witness :
    decryptCredentials (fun _ _ c => some c) (fun _ _ => []) (fun _ => some ("alice", "key-1"))
      "master" "uid-1"
      (encryptCredentials (fun _ _ m => m) (fun _ _ => []) (fun _ _ => [0]) "master" "uid-1"
        "alice" "key-1" (List.range 12))
      = some ("alice", "key-1") :=
  C9_roundtrip (fun _ _ m => m) (fun _ _ c => some c) (fun _ _ => []) (fun _ _ => [0])
    (fun _ => some ("alice", "key-1")) "master" "uid-1" "alice" "key-1" (List.range 12)
    (by decide) (by decide) (by decide) rfl rfl

/-- Claim C10: with no user id, the mute-self rule of shouldNotify is
skipped entirely — the result ignores the muteSelfMessages flag and is
never self_message — while the same message with the matching user id is
suppressed as self_message; and the worker poll path, which never passes a
user id, pushes a DM the subscriber sent to themselves. -/
theorem C10_no_user_id_skips_mute_self :
    (∀ (settings : FilterSettings) (msg : FilterableMessage) (env : FilterEnv),
      shouldNotify settings msg none env
        = shouldNotify { settings with muteSelfMessages := false } msg none env)
    ∧ (∀ (settings : FilterSettings) (msg : FilterableMessage) (env : FilterEnv),
        (shouldNotify settings msg none env).reason ≠ "self_message")
    ∧ shouldNotify dmFilters selfDMMessage (some 7) noRegexEnv
        = { notify := false, reason := "self_message" }
    ∧ pollUser (some subSelf) roundSelfDM
        = (some { subSelf with lastEventId := 9, failures := 0 }, [9]) :=
  ⟨shouldNotify_none_ignores_mute_self, shouldNotify_none_reason_ne_self, rfl, rfl⟩

end ZMN
